import Mathlib

/-!
# Verification of the TransportDashboard data-source layer

A shallow embedding, in Lean 4, of the parts of the TransportDashboard
Flask application that the specification's claims are about:

* `src/models/data_source.py` — the `DataSource` model: cache validity,
  health tracking (`record_success` / `record_error`), format detection;
* `src/services/data_fetcher.py` — the fetch orchestrator (`fetch_data`),
  the link fetcher's scratch-file discipline, and `_extract_data_path`;
* `src/services/widget_processor.py` — the table widget and the
  stat-card trend calculation;
* `src/models/support.py` — the `DataRefreshLog` model;
* `src/blueprints/data_sources.py` — format selection in `create_upload`.

Conventions used throughout:

* Python `datetime` timestamps are modelled as `Nat` seconds; the current
  time (`datetime.utcnow()`) is passed explicitly to each operation.
* Python floats are modelled as `ℚ` (exact arithmetic).
* Python JSON-like values (`dict` / `list` / scalars / `None`) are the
  inductive type `PyVal`.
* A nullable column/attribute is an `Option`; Python truthiness of a
  `datetime` is `Option.isSome` (a datetime object is always truthy),
  while truthiness of a float also treats `0` as falsy, and is modelled
  that way where the source relies on it.
* Effectful steps that the source performs through libraries (HTTP,
  pandas sorting, `exec` of a transform script, `len(str(...))`) are
  function parameters of the embedding: the claims hold for every
  behaviour of those steps.
-/

/-- A Python JSON-like value: `None`, `int`/`float` (as `ℚ`), `str`,
`list`, or `dict` (association list preserving insertion order). -/
inductive PyVal where
  | null : PyVal
  | num (q : ℚ) : PyVal
  | str (s : String) : PyVal
  | list (xs : List PyVal) : PyVal
  | dict (fields : List (String × PyVal)) : PyVal
  deriving Inhabited

/-- Lookup in a Python dict: `d.get(k)` returns `None` when `k` is absent. -/
def dictGet (fields : List (String × PyVal)) (k : String) : PyVal :=
  match fields with
  | [] => PyVal.null
  | (k', v) :: rest => if k' = k then v else dictGet rest k

/-- Python string slicing `s[:n]` (by characters). -/
def pyTake (n : Nat) (s : String) : String := String.mk (s.data.take n)

/-- Python `round()` on an exact rational: round-half-to-even
(banker's rounding), as Python's builtin `round` does. -/
def pyRoundHalfEven (q : ℚ) : ℤ :=
  let f := ⌊q⌋
  if q - f < 1/2 then f
  else if q - f > 1/2 then f + 1
  else if 2 ∣ f then f else f + 1

/-- Python `round(x, 2)`. -/
def pyRound2 (q : ℚ) : ℚ := (pyRoundHalfEven (q * 100) : ℚ) / 100

/-- The `DataSource` model (`src/models/data_source.py`), restricted to the
columns that the verified operations read or write.  Encrypted credential
columns, descriptive metadata and foreign keys are omitted: none of the
embedded methods touch them. -/
structure DataSource where
  health_status : String
  consecutive_failures : Nat
  success_count : Nat
  error_count : Nat
  last_refresh : Option Nat
  last_refresh_status : Option String
  last_refresh_error : Option String
  last_error_message : Option String
  health_checked_at : Option Nat
  refresh_in_progress : Bool
  cache_enabled : Bool
  cache_ttl : Nat
  cached_data : Option PyVal
  cached_at : Option Nat
  auto_refresh : Bool
  refresh_frequency : Option Nat
  next_refresh : Option Nat
  avg_response_time : Option ℚ
  min_response_time : Option ℚ
  max_response_time : Option ℚ
  record_count : Option Nat
  last_record_count : Option Nat
  data_updated_at : Option Nat
  first_data_received : Option Nat
  alert_on_failure : Bool
  alert_threshold : Nat
  alert_sent_at : Option Nat
  transform_script : Option String

namespace DataSource

/-- `DataSource.success_rate` (property, lines 293-299):
`100.0` when no fetch was recorded, else `round(success/total*100, 2)`. -/
def success_rate (ds : DataSource) : ℚ :=
  let total := ds.success_count + ds.error_count
  if total = 0 then 100
  else pyRound2 ((ds.success_count : ℚ) / (total : ℚ) * 100)

/-- `DataSource.is_cache_valid` (property, lines 275-281): false when caching
is disabled or nothing was cached; otherwise true iff `now` is strictly
before `cached_at + cache_ttl` seconds. -/
def is_cache_valid (ds : DataSource) (now : Nat) : Bool :=
  if !ds.cache_enabled then false
  else
    match ds.cached_at with
    | none => false
    | some c => decide (now < c + ds.cache_ttl)

/-- `DataSource.schedule_refresh` (lines 394-397): sets `next_refresh` when
auto-refresh is on and a (truthy, i.e. nonzero) frequency is set.  The
conditional mutation is rendered as a conditional value for the one field
it assigns. -/
def schedule_refresh (ds : DataSource) (now : Nat) : DataSource :=
  { ds with next_refresh :=
      match ds.auto_refresh, ds.refresh_frequency with
      | true, some f => if f = 0 then ds.next_refresh else some (now + f)
      | _, _ => ds.next_refresh }

/-- `DataSource.record_success` (lines 399-431): resets failure tracking,
marks the source healthy, clears the in-progress flag, updates the
response-time statistics (only for a truthy, i.e. nonzero, response time)
and record counts, and schedules the next refresh. -/
def record_success (ds : DataSource) (now : Nat)
    (response_time : Option ℚ) (record_count : Option Nat) : DataSource :=
  let ds1 := { ds with
    success_count := ds.success_count + 1
    consecutive_failures := 0
    last_refresh := some now
    last_refresh_status := some "success"
    last_refresh_error := none
    last_error_message := none
    health_status := "healthy"
    health_checked_at := some now
    refresh_in_progress := false }
  -- `if response_time:` — the statistics block runs only for a truthy
  -- (present, nonzero) response time; each conditional assignment is
  -- rendered as a conditional value for the field it assigns.
  let rtEff : Option ℚ :=
    match response_time with
    | some rt => if rt = 0 then none else some rt
    | none => none
  let ds2 := { ds1 with
    avg_response_time :=
      match rtEff with
      | some rt => some
          (match ds1.avg_response_time with
           | some a => if a = 0 then rt else a * (7/10) + rt * (3/10)
           | none => rt)
      | none => ds1.avg_response_time
    min_response_time :=
      match rtEff with
      | some rt =>
        match ds1.min_response_time with
        | none => some rt
        | some mv => if mv = 0 ∨ rt < mv then some rt else some mv
      | none => ds1.min_response_time
    max_response_time :=
      match rtEff with
      | some rt =>
        match ds1.max_response_time with
        | none => some rt
        | some mv => if mv = 0 ∨ rt > mv then some rt else some mv
      | none => ds1.max_response_time }
  -- `if record_count is not None:` — `last_record_count` reads the
  -- pre-assignment `record_count`, as in the source's statement order.
  let ds3 := { ds2 with
    last_record_count :=
      match record_count with
      | some _ => ds2.record_count
      | none => ds2.last_record_count
    record_count :=
      match record_count with
      | some rc => some rc
      | none => ds2.record_count
    data_updated_at :=
      match record_count with
      | some _ => some now
      | none => ds2.data_updated_at }
  -- `if not self.first_data_received:`
  let ds4 := { ds3 with
    first_data_received :=
      match ds3.first_data_received with
      | none => some now
      | some t => some t }
  schedule_refresh ds4 now

/-- `DataSource.record_error` (lines 433-460): bumps the error counters,
stores the message truncated to 1000 characters, clears the in-progress
flag, derives the health status from the updated counters
(`down` at 5 consecutive failures, `degraded` at 3 or when the success
rate drops under 80), schedules the next refresh and stamps the alert. -/
def record_error (ds : DataSource) (now : Nat) (error_message : String) : DataSource :=
  let ds1 := { ds with
    error_count := ds.error_count + 1
    consecutive_failures := ds.consecutive_failures + 1
    last_refresh := some now
    last_refresh_status := some "error"
    last_refresh_error := some (pyTake 1000 error_message)
    last_error_message := some (pyTake 1000 error_message)
    refresh_in_progress := false }
  -- the `if/elif/elif` ladder assigns only `health_status`; it reads the
  -- counters already updated above
  let ds2 := { ds1 with
    health_status :=
      if ds1.consecutive_failures ≥ 5 then "down"
      else if ds1.consecutive_failures ≥ 3 then "degraded"
      else if ds1.success_rate < (80 : ℚ) then "degraded"
      else ds1.health_status
    health_checked_at := some now }
  let ds3 := schedule_refresh ds2 now
  let alertDue : Bool :=
    ds3.alert_on_failure && decide (ds3.consecutive_failures ≥ ds3.alert_threshold) &&
      (match ds3.alert_sent_at with
       | none => true
       | some s => decide (now - s > 3600))
  { ds3 with alert_sent_at := if alertDue then some now else ds3.alert_sent_at }

/-- `DataSource.cache_data` (lines 462-466): stores the payload and stamps
`cached_at`, but only when caching is enabled. -/
def cache_data (ds : DataSource) (now : Nat) (data : PyVal) : DataSource :=
  { ds with
    cached_data := if ds.cache_enabled then some data else ds.cached_data
    cached_at := if ds.cache_enabled then some now else ds.cached_at }

end DataSource

/-- Python `==` on JSON-like values (structural equality). -/
def PyVal.beq : PyVal → PyVal → Bool
  | .null, .null => true
  | .num a, .num b => a == b
  | .str a, .str b => a == b
  | .list [], .list [] => true
  | .list (x :: xs), .list (y :: ys) => PyVal.beq x y && PyVal.beq (.list xs) (.list ys)
  | .dict [], .dict [] => true
  | .dict ((k, v) :: xs), .dict ((l, w) :: ys) =>
      k == l && PyVal.beq v w && PyVal.beq (.dict xs) (.dict ys)
  | _, _ => false

/-- Python `s.strip(chars)`: removes every character of `cs` from both ends. -/
def pyStripChars (cs : List Char) (s : String) : String :=
  String.mk (((s.data.dropWhile (· ∈ cs)).reverse.dropWhile (· ∈ cs)).reverse)

/-- Python `s.split(sep)` for a single separator character, over the
character list: `""` splits to `[""]`, adjacent separators produce empty
segments. -/
def splitOnChar (sep : Char) : List Char → List (List Char)
  | [] => [[]]
  | c :: cs =>
    let r := splitOnChar sep cs
    if c = sep then [] :: r
    else
      match r with
      | h :: t => (c :: h) :: t
      | [] => [[c]]

/-- Python `part.isdigit()` for ASCII digit strings: nonempty and
all digits. -/
def isDigits (part : List Char) : Bool :=
  !part.isEmpty && part.all Char.isDigit

/-- Python `int(part)` for an all-digit string. -/
def digitsToNat (part : List Char) : Nat :=
  part.foldl (fun n c => n * 10 + (c.toNat - '0'.toNat)) 0

namespace DataFetcher

/-- One step of the traversal loop in `DataFetcher._extract_data_path`
(lines 412-421): dict access via `.get` (missing key yields `None`),
list access for an all-digit segment (out of range raises `IndexError`,
whose Python message is `list index out of range`), anything else raises
`ValueError('Cannot access path: ...')`. -/
def pathStep (r : PyVal) (part : List Char) : Except String PyVal :=
  match r with
  | .dict fs => .ok (dictGet fs (String.mk part))
  | .list xs =>
    if isDigits part then
      match xs.get? (digitsToNat part) with
      | some v => .ok v
      | none => .error "list index out of range"
    else .error ("Cannot access path: " ++ String.mk part)
  | _ => .error ("Cannot access path: " ++ String.mk part)

/-- The `for part in parts` loop of `_extract_data_path`: traverse each
segment, stopping early (with the current `None`) as soon as the running
result is `None` — `if result is None: break`. -/
def extractLoop : PyVal → List (List Char) → Except String PyVal
  | r, [] => .ok r
  | r, part :: parts =>
    match pathStep r part with
    | .error e => .error e
    | .ok .null => .ok .null
    | .ok r' => extractLoop r' parts

/-- `DataFetcher._extract_data_path` (lines 406-427): strips `$` and `.`
characters from both ends of the path (Python `path.strip('$.')`), splits
on `.`, traverses, and re-wraps any exception as
`Exception('Error extracting data path: ...')`. -/
def extract_data_path (data : PyVal) (path : String) : Except String PyVal :=
  match extractLoop data (splitOnChar '.' (pyStripChars ['$', '.'] path).data) with
  | .ok v => .ok v
  | .error e => .error ("Error extracting data path: " ++ e)

end DataFetcher

/-- The `DataRefreshLog` model (`src/models/support.py`), restricted to the
columns its embedded methods read or write (foreign keys and ids omitted). -/
structure DataRefreshLog where
  status : String
  records_fetched : Option Nat
  records_processed : Option Nat
  duration_ms : Option Nat
  data_size_bytes : Option Nat
  error_message : Option String
  error_trace : Option String
  triggered_by : Option String
  started_at : Option Nat
  completed_at : Option Nat
  deriving DecidableEq, Repr

namespace DataRefreshLog

/-- `DataRefreshLog.start_refresh` (lines 382-392): a fresh log row in
status `running`, stamped with the current time. -/
def start_refresh (triggered_by : String) (now : Nat) : DataRefreshLog :=
  { status := "running"
    records_fetched := none
    records_processed := none
    duration_ms := none
    data_size_bytes := none
    error_message := none
    error_trace := none
    triggered_by := some triggered_by
    started_at := some now
    completed_at := none }

/-- `DataRefreshLog.complete_success` (lines 395-407). -/
def complete_success (log : DataRefreshLog)
    (records_fetched records_processed data_size_bytes : Nat) (now : Nat) :
    DataRefreshLog :=
  let log := { log with
    status := "success"
    records_fetched := some records_fetched
    records_processed := some records_processed
    data_size_bytes := some data_size_bytes
    completed_at := some now }
  match log.started_at with
  | some s => { log with duration_ms := some ((now - s) * 1000) }
  | none => log

/-- `DataRefreshLog.complete_error` (lines 409-420). -/
def complete_error (log : DataRefreshLog)
    (error_message : String) (error_trace : Option String) (now : Nat) :
    DataRefreshLog :=
  let log := { log with
    status := "error"
    error_message := some error_message
    error_trace := error_trace
    completed_at := some now }
  match log.started_at with
  | some s => { log with duration_ms := some ((now - s) * 1000) }
  | none => log

end DataRefreshLog

/-- The three possible return dicts of `DataFetcher.fetch_data`
(lines 38-117): a cache hit `{success: True, data, from_cache: True,
cached_at}`, a fresh fetch `{success: True, data, from_cache: False,
response_time, record_count}`, or a failure
`{success: False, error, data: None}`. -/
inductive FetchResult where
  | cacheHit (data : Option PyVal) (cached_at : Option Nat) : FetchResult
  | fresh (data : PyVal) (response_time : ℚ) (record_count : Nat) : FetchResult
  | failure (error : String) : FetchResult

namespace FetchResult

/-- The `success` key of the returned dict. -/
def success : FetchResult → Bool
  | .failure _ => false
  | _ => true

/-- The `from_cache` key of the returned dict (absent on the failure dict). -/
def from_cache : FetchResult → Option Bool
  | .cacheHit _ _ => some true
  | .fresh _ _ _ => some false
  | .failure _ => none

/-- The `data` key of the returned dict (`None` on failure). -/
def dataOut : FetchResult → Option PyVal
  | .cacheHit d _ => d
  | .fresh d _ _ => some d
  | .failure _ => none

/-- The `error` key of the returned dict. -/
def errorOut : FetchResult → Option String
  | .failure e => some e
  | _ => none

end FetchResult

/-- Everything one `fetch_data` call produces: the returned dict, the
mutated `DataSource`, the refresh-log rows it created, and (as
instrumentation for the at-most-once claim) how many times the dispatched
connection fetcher ran. -/
structure FetchStep where
  result : FetchResult
  ds : DataSource
  logs : List DataRefreshLog
  fetcher_calls : Nat

/-- `len(processed_data) if isinstance(processed_data, list) else 1`
(line 80 of `data_fetcher.py`). -/
def pyLenOrOne : PyVal → Nat
  | .list xs => xs.length
  | _ => 1

namespace DataFetcher

/-- `DataFetcher._process_data` (lines 430-443): when a (truthy) transform
script is set, run it — the `exec` outcome is the abstract `transform`
parameter, which is total because the source catches transform errors and
falls back to the unmodified data; otherwise return the data unchanged. -/
def process_data (transform : String → PyVal → PyVal) (data : PyVal)
    (ds : DataSource) : PyVal :=
  match ds.transform_script with
  | some s => if s = "" then data else transform s data
  | none => data

/-- `DataFetcher.fetch_data` (lines 25-117).  The six per-type connection
fetchers (`_fetch_from_api` … `_fetch_from_spreadsheet`) are abstracted as
the `fetcher` parameter, returning either the fetched payload or the
exception it raised as `(str(e), traceback)`; `strLen` abstracts
`len(str(processed_data))`.  `t_start` is the clock at entry, `t_end` the
clock when the dispatched fetch returns; every timestamp taken after the
fetch uses `t_end`.  The whole body is wrapped in `try/except`, so the
embedding is a total function: no fetcher exception escapes. -/
def fetch_data
    (fetcher : DataSource → Except (String × String) PyVal)
    (transform : String → PyVal → PyVal)
    (strLen : PyVal → Nat)
    (t_start t_end : Nat)
    (ds : DataSource) (force_refresh : Bool) : FetchStep :=
  if !force_refresh && ds.is_cache_valid t_start then
    { result := .cacheHit ds.cached_data ds.cached_at
      ds := ds, logs := [], fetcher_calls := 0 }
  else
    let log := DataRefreshLog.start_refresh (if force_refresh then "manual" else "auto") t_start
    match fetcher ds with
    | .ok raw =>
      let response_time : ℚ := ((t_end - t_start : Nat) : ℚ) * 1000
      let processed := process_data transform raw ds
      let ds := ds.cache_data t_end processed
      let record_count := pyLenOrOne processed
      let ds := ds.record_success t_end (some response_time) (some record_count)
      let log := log.complete_success record_count record_count (strLen processed) t_end
      { result := .fresh processed response_time record_count
        ds := ds, logs := [log], fetcher_calls := 1 }
    | .error (msg, trace) =>
      let ds := ds.record_error t_end msg
      let log := log.complete_error msg (some trace) t_end
      { result := .failure msg, ds := ds, logs := [log], fetcher_calls := 1 }

/-- Resource model of `DataFetcher._fetch_from_link` (lines 183-224).
Each effectful phase is given by its outcome: `download` is
`requests.get` + `raise_for_status` (before the scratch file exists);
`write` is the `NamedTemporaryFile(delete=False)` block writing the
response chunks (after which the scratch file exists on disk); `read` is
`_read_file` on the scratch path, guarded by `try/finally: os.unlink`.
The returned Bool is whether the scratch file still exists on disk when
the call returns or raises. -/
def fetch_from_link
    (download : Except String Unit)
    (write : Except String Unit)
    (read : Except String PyVal) : Except String PyVal × Bool :=
  match download with
  | .error e => (.error ("Link fetch failed: " ++ e), false)
  | .ok _ =>
    match write with
    | .error e => (.error ("Link fetch failed: " ++ e), true)
    | .ok _ =>
      match read with
      | .error e => (.error ("Link fetch failed: " ++ e), false)
      | .ok v => (.ok v, false)

end DataFetcher

/-- A DataFrame row, as pandas builds it from a list of dicts: an
association list from column name to value (a missing column reads as
`None`/NaN). -/
def PyRow : Type := List (String × PyVal)

/-- One entry of the widget's `filters` list: `field`, `operator`
(source default `equals` via `filter_config.get('operator', 'equals')`)
and `value`, already extracted from the filter dict. -/
structure FilterCfg where
  field : String
  operator : String
  value : PyVal

/-- The widget's `sorting` dict: `sorting.get('field')` and
`sorting.get('order', 'asc')`. -/
structure SortCfg where
  field : Option String
  order : Option String

/-- The columns of a table widget (`src/models/...` widget row), restricted
to the attributes `_process_table` reads: `fields`, `sorting`, `limit`
(each nullable; `fields`/`sorting` may arrive as JSON text, modelled
already parsed). -/
structure TableWidget where
  fields : Option (List String)
  sorting : Option SortCfg
  limit : Option Nat

/-- The dict `_process_table` returns: `{columns, rows, total_rows}`. -/
structure TableResult where
  columns : List String
  rows : List PyRow
  total_rows : Nat

/-- Python `sub in s` on strings. -/
def strContainsSub (s sub : String) : Bool :=
  sub = "" || (s.splitOn sub).length > 1

/-- pandas column order for `pd.DataFrame(list_of_dicts)`: the union of the
rows' keys in first-appearance order. -/
def colsOf (rows : List PyRow) : List String :=
  rows.foldl
    (fun acc r => r.foldl
      (fun acc2 kv => if acc2.contains kv.1 then acc2 else acc2 ++ [kv.1]) acc)
    []

namespace WidgetProcessor

/-- One operator branch of `WidgetProcessor._apply_filters`
(lines 211-229): boolean-mask filtering of the rows; comparisons and
`str.contains` (with `na=False`) are false on missing / non-matching-typed
values, and an unknown operator leaves the rows unchanged. -/
def applyFilterStep (rows : List PyRow) (fc : FilterCfg) : List PyRow :=
  if fc.operator = "equals" then
    rows.filter fun r => PyVal.beq (dictGet r fc.field) fc.value
  else if fc.operator = "not_equals" then
    rows.filter fun r => !PyVal.beq (dictGet r fc.field) fc.value
  else if fc.operator = "greater_than" then
    rows.filter fun r =>
      match dictGet r fc.field, fc.value with
      | .num x, .num y => decide (x > y)
      | _, _ => false
  else if fc.operator = "less_than" then
    rows.filter fun r =>
      match dictGet r fc.field, fc.value with
      | .num x, .num y => decide (x < y)
      | _, _ => false
  else if fc.operator = "contains" then
    rows.filter fun r =>
      match dictGet r fc.field, fc.value with
      | .str s, .str sub => strContainsSub s sub
      | _, _ => false
  else rows

/-- `WidgetProcessor._apply_filters` (lines 211-229): each filter config in
turn narrows the DataFrame. -/
def apply_filters (rows : List PyRow) (filters : List FilterCfg) : List PyRow :=
  filters.foldl applyFilterStep rows

/-- `df[fields]`: project every row onto the listed columns, in order. -/
def selectFields (rows : List PyRow) (fields : List String) : List PyRow :=
  rows.map fun r => fields.map fun f => (f, dictGet r f)

/-- `WidgetProcessor._process_table` (lines 176-208).  `sortImpl` abstracts
`df.sort_values` (pandas-internal comparison semantics); the claims hold
for every behaviour of it.  Applies filters (when the list is truthy),
column selection (when `fields` is truthy), sorting, then truncates to
`widget.limit or 100` and emits `{columns, rows, total_rows}` with
`total_rows = len(df)` taken from the already-truncated frame. -/
def process_table (sortImpl : SortCfg → List PyRow → List PyRow)
    (w : TableWidget) (data : List PyRow) (filters : List FilterCfg) :
    TableResult :=
  let df := data
  let df := if filters.isEmpty then df else apply_filters df filters
  let selected : Option (List String) :=
    match w.fields with
    | some fields => if fields = [] then none else some fields
    | none => none
  let df :=
    match selected with
    | some fields => selectFields df fields
    | none => df
  let df :=
    match w.sorting with
    | some cfg => sortImpl cfg df
    | none => df
  let limit :=
    match w.limit with
    | some l => if l = 0 then 100 else l
    | none => 100
  let df := df.take limit
  { columns :=
      match selected with
      | some fields => fields
      | none => colsOf data
    rows := df
    total_rows := df.length }

/-- The trend dict `{direction, percentage, value}`. -/
structure Trend where
  direction : String
  percentage : ℚ
  value : ℚ
  deriving DecidableEq, Repr

/-- `WidgetProcessor._calculate_trend` (lines 231-259), applied to the
numeric column `df[field]` of the (already filtered) stat-card frame:
`None` under 2 rows; first half = `df.head(len//2)`, second half =
`df.tail(len//2)`; aggregate by `sum` or `avg` (anything else yields
`None`); `None` when the first-half aggregate is zero; otherwise the
percentage change of the second half over the first. -/
def calculate_trend (col : List ℚ) (agg_func : String) : Option Trend :=
  if col.length < 2 then none
  else
    let h := col.length / 2
    let first_half := col.take h
    let second_half := col.drop (col.length - h)
    let vals : Option (ℚ × ℚ) :=
      if agg_func = "sum" then some (first_half.sum, second_half.sum)
      else if agg_func = "avg" then
        some (first_half.sum / (first_half.length : ℚ),
              second_half.sum / (second_half.length : ℚ))
      else none
    match vals with
    | none => none
    | some (fv, sv) =>
      if fv = 0 then none
      else
        let change := ((sv - fv) / fv) * 100
        some { direction := if change > 0 then "up"
                            else if change < 0 then "down" else "neutral"
               percentage := |change|
               value := change }

end WidgetProcessor

/-- The `DataFormat` enum (`src/models/data_source.py` lines 38-48). -/
inductive DataFormat where
  | json | csv | xml | excel | parquet | pdf | docx | txt | html
  deriving DecidableEq, Repr

/-- The `mime_mapping` dict of `DataSource.detect_format_from_file`
(lines 323-334). -/
def mimeMapping : List (String × DataFormat) :=
  [("application/json", .json),
   ("text/csv", .csv),
   ("application/vnd.ms-excel", .excel),
   ("application/vnd.openxmlformats-officedocument.spreadsheetml.sheet", .excel),
   ("application/xml", .xml),
   ("text/xml", .xml),
   ("application/pdf", .pdf),
   ("application/vnd.openxmlformats-officedocument.wordprocessingml.document", .docx),
   ("text/plain", .txt),
   ("text/html", .html)]

/-- The `ext_mapping` dict of `DataSource.detect_format_from_file`
(lines 341-353). -/
def extMapping : List (String × DataFormat) :=
  [(".json", .json),
   (".csv", .csv),
   (".xlsx", .excel),
   (".xls", .excel),
   (".xml", .xml),
   (".parquet", .parquet),
   (".pdf", .pdf),
   (".docx", .docx),
   (".txt", .txt),
   (".html", .html),
   (".htm", .html)]

/-- Python `bytes.startswith` on byte characters. -/
def bytesPrefix (pre header : List Char) : Bool :=
  match pre with
  | [] => true
  | p :: ps =>
    match header with
    | [] => false
    | h :: hs => p == h && bytesPrefix ps hs

namespace DataSource

/-- `DataSource._detect_by_signature` (lines 363-391): the first 8 bytes of
the file (here `header`, as a list of byte characters) decide the format;
ZIP headers are disambiguated by the lowercased path's extension, and a
header that matches no signature but contains a comma or tab is taken as
CSV. -/
def detect_by_signature (path_lower : String) (header : List Char) :
    Option DataFormat :=
  if bytesPrefix ['P', 'K', '\x03', '\x04'] header then
    if path_lower.endsWith ".xlsx" || path_lower.endsWith ".xls" then some .excel
    else if path_lower.endsWith ".docx" then some .docx
    else if path_lower.endsWith ".parquet" then some .parquet
    else none
  else if bytesPrefix ['%', 'P', 'D', 'F'] header then some .pdf
  else if bytesPrefix ['<', '?', 'x', 'm', 'l'] header || bytesPrefix ['<'] header then
    some .xml
  else if bytesPrefix ['\x7b'] header || bytesPrefix ['['] header then some .json
  else if header.contains ',' || header.contains '\t' then some .csv
  else none

/-- `DataSource.detect_format_from_file` (lines 312-361).  The stdlib
lookups are passed in as arguments: `mime_type` is
`mimetypes.guess_type(file_path)[0]`, `ext` is the lowercased
`os.path.splitext(file_path)[1]`, `path_lower` is `file_path.lower()`,
`file_exists` is `os.path.exists(file_path)` and `header` holds the
file's first 8 bytes.  MIME registry first, then the extension table,
then (only if the file exists) magic-byte signatures. -/
def detect_format_from_file (mime_type : Option String) (ext : String)
    (path_lower : String) (file_exists : Bool) (header : List Char) :
    Option DataFormat × Option String :=
  let detected : Option DataFormat :=
    match mime_type with
    | some m => if m = "" then none else mimeMapping.lookup m
    | none => none
  let detected : Option DataFormat :=
    match detected with
    | some d => some d
    | none => extMapping.lookup ext
  let detected : Option DataFormat :=
    match detected with
    | some d => some d
    | none => if file_exists then detect_by_signature path_lower header else none
  (detected, mime_type)

end DataSource

/-- `DataFormat[name.upper()]` for the lowercase strings the upload form
offers (`create_upload`, `src/blueprints/data_sources.py` line 216):
enum lookup by member name; an unknown name raises `KeyError`, modelled
as `none`. -/
def formatFromName : String → Option DataFormat
  | "json" => some .json
  | "csv" => some .csv
  | "xml" => some .xml
  | "excel" => some .excel
  | "parquet" => some .parquet
  | "pdf" => some .pdf
  | "docx" => some .docx
  | "txt" => some .txt
  | "html" => some .html
  | _ => none

/-- The format-selection logic of `create_upload`
(`src/blueprints/data_sources.py` lines 201-216): when the form declares
`auto`, run `detect_format_from_file` on the saved file and fall back to
JSON when nothing is detected; otherwise use `DataFormat[declared.upper()]`
and never look at the file. -/
def create_upload_data_format (declared : String) (mime_type : Option String)
    (ext : String) (path_lower : String) (file_exists : Bool)
    (header : List Char) : Option DataFormat :=
  if declared = "auto" then
    some (((DataSource.detect_format_from_file mime_type ext path_lower
      file_exists header).1).getD .json)
  else formatFromName declared

/-- A baseline source used to instantiate the universally quantified
theorems on concrete inputs: fresh counters, healthy, cache enabled with
the model's default TTL of 300 seconds. -/
def dsBase : DataSource :=
  { health_status := "healthy", consecutive_failures := 0, success_count := 0
    error_count := 0, last_refresh := none, last_refresh_status := none
    last_refresh_error := none, last_error_message := none
    health_checked_at := none, refresh_in_progress := false
    cache_enabled := true, cache_ttl := 300, cached_data := none
    cached_at := none, auto_refresh := false, refresh_frequency := none
    next_refresh := none, avg_response_time := none, min_response_time := none
    max_response_time := none, record_count := none, last_record_count := none
    data_updated_at := none, first_data_received := none
    alert_on_failure := true, alert_threshold := 3, alert_sent_at := none
    transform_script := none }

/-- `dsBase` with a cached payload stamped at time 10. -/
def dsCached : DataSource :=
  { dsBase with cached_at := some 10, cached_data := some (PyVal.num 7) }

/-- The payload `{"data": {"items": [{"x": 1}, {"x": 2}]}}` from the
data-path extraction claim. -/
def samplePayload : PyVal :=
  .dict [("data", .dict [("items",
    .list [.dict [("x", .num 1)], .dict [("x", .num 2)]])])]

/-- A table widget with no field selection, no sorting, and `limit = 2`. -/
def limitTwoWidget : TableWidget :=
  { fields := none, sorting := none, limit := some 2 }

/-- Three one-column rows `a = 1, 2, 3`. -/
def threeRows : List PyRow :=
  [[("a", PyVal.num 1)], [("a", PyVal.num 2)], [("a", PyVal.num 3)]]

/-! ## Helper lemmas -/

lemma is_cache_valid_iff (ds : DataSource) (now : Nat) :
    ds.is_cache_valid now = true ↔
      ds.cache_enabled = true ∧ ∃ c, ds.cached_at = some c ∧ now < c + ds.cache_ttl := by
  unfold DataSource.is_cache_valid
  cases h : ds.cache_enabled <;> cases hca : ds.cached_at <;> simp [h, hca]

lemma record_success_cache_fields (ds : DataSource) (now : Nat)
    (rt : Option ℚ) (rc : Option Nat) :
    (ds.record_success now rt rc).cache_enabled = ds.cache_enabled ∧
    (ds.record_success now rt rc).cached_at = ds.cached_at ∧
    (ds.record_success now rt rc).cached_data = ds.cached_data ∧
    (ds.record_success now rt rc).cache_ttl = ds.cache_ttl :=
  ⟨rfl, rfl, rfl, rfl⟩

lemma cache_data_fields (ds : DataSource) (now : Nat) (d : PyVal) :
    (ds.cache_data now d).cache_enabled = ds.cache_enabled ∧
    (ds.cache_data now d).cache_ttl = ds.cache_ttl ∧
    (ds.cache_data now d).cached_at = (if ds.cache_enabled then some now else ds.cached_at) ∧
    (ds.cache_data now d).cached_data = (if ds.cache_enabled then some d else ds.cached_data) :=
  ⟨rfl, rfl, rfl, rfl⟩

lemma record_error_cf (ds : DataSource) (now : Nat) (m : String) :
    (ds.record_error now m).consecutive_failures = ds.consecutive_failures + 1 := rfl

lemma record_error_health_status (ds : DataSource) (now : Nat) (m : String) :
    (ds.record_error now m).health_status =
      (if ds.consecutive_failures + 1 ≥ 5 then "down"
       else if ds.consecutive_failures + 1 ≥ 3 then "degraded"
       else if (ds.record_error now m).success_rate < (80 : ℚ) then "degraded"
       else ds.health_status) := rfl

lemma record_success_cf (ds : DataSource) (now : Nat)
    (rt : Option ℚ) (rc : Option Nat) :
    (ds.record_success now rt rc).consecutive_failures = 0 := rfl

lemma record_success_health (ds : DataSource) (now : Nat)
    (rt : Option ℚ) (rc : Option Nat) :
    (ds.record_success now rt rc).health_status = "healthy" := rfl

/-! ## Claim theorems -/

/-- C1 — Health state machine thresholds: from a healthy source with no
consecutive failures, three `record_error` calls leave it `degraded`, five
leave it `down`, and one subsequent `record_success` resets
`consecutive_failures` to 0 and `health_status` to `healthy`; in general
`record_error` sets `down` when the (updated) consecutive-failure count
reaches 5, else `degraded` when it reaches 3 or the success rate is below
80, and otherwise leaves the health status unchanged. -/
theorem claim_C1_health_state_machine
    (ds : DataSource) (t1 t2 t3 t4 t5 t6 : Nat) (m1 m2 m3 m4 m5 : String)
    (rt : Option ℚ) (rc : Option Nat)
    (hh : ds.health_status = "healthy")
    (hc : ds.consecutive_failures = 0) :
    ((((ds.record_error t1 m1).record_error t2 m2).record_error t3 m3).health_status
        = "degraded") ∧
    ((((((ds.record_error t1 m1).record_error t2 m2).record_error t3 m3).record_error
        t4 m4).record_error t5 m5).health_status = "down") ∧
    (((((((ds.record_error t1 m1).record_error t2 m2).record_error t3 m3).record_error
        t4 m4).record_error t5 m5).record_success t6 rt rc).consecutive_failures = 0) ∧
    (((((((ds.record_error t1 m1).record_error t2 m2).record_error t3 m3).record_error
        t4 m4).record_error t5 m5).record_success t6 rt rc).health_status = "healthy") ∧
    (∀ (d : DataSource) (t : Nat) (m : String),
      (d.record_error t m).consecutive_failures = d.consecutive_failures + 1 ∧
      ((d.record_error t m).consecutive_failures ≥ 5 →
        (d.record_error t m).health_status = "down") ∧
      ((d.record_error t m).consecutive_failures < 5 →
        (d.record_error t m).consecutive_failures ≥ 3 →
        (d.record_error t m).health_status = "degraded") ∧
      ((d.record_error t m).consecutive_failures < 5 →
        (d.record_error t m).consecutive_failures < 3 →
        (d.record_error t m).success_rate < (80 : ℚ) →
        (d.record_error t m).health_status = "degraded") ∧
      ((d.record_error t m).consecutive_failures < 5 →
        (d.record_error t m).consecutive_failures < 3 →
        ¬ (d.record_error t m).success_rate < (80 : ℚ) →
        (d.record_error t m).health_status = d.health_status)) := by
  have cf1 : (ds.record_error t1 m1).consecutive_failures = 1 := by
    rw [record_error_cf, hc]
  have cf2 : ((ds.record_error t1 m1).record_error t2 m2).consecutive_failures = 2 := by
    rw [record_error_cf, cf1]
  have cf3 : (((ds.record_error t1 m1).record_error t2 m2).record_error
      t3 m3).consecutive_failures = 3 := by
    rw [record_error_cf, cf2]
  have cf4 : ((((ds.record_error t1 m1).record_error t2 m2).record_error
      t3 m3).record_error t4 m4).consecutive_failures = 4 := by
    rw [record_error_cf, cf3]
  refine ⟨?_, ?_, record_success_cf _ _ _ _, record_success_health _ _ _ _, ?_⟩
  · rw [record_error_health_status, cf2]
    norm_num
  · rw [record_error_health_status, cf4]
    norm_num
  · intro d t m
    refine ⟨record_error_cf d t m, ?_, ?_, ?_, ?_⟩
    · intro h5
      rw [record_error_cf] at h5
      rw [record_error_health_status, if_pos h5]
    · intro h5 h3
      rw [record_error_cf] at h5 h3
      rw [record_error_health_status, if_neg (by omega), if_pos h3]
    · intro h5 h3 hsr
      rw [record_error_cf] at h5 h3
      rw [record_error_health_status, if_neg (by omega), if_neg (by omega), if_pos hsr]
    · intro h5 h3 hsr
      rw [record_error_cf] at h5 h3
      rw [record_error_health_status, if_neg (by omega), if_neg (by omega), if_neg hsr]

/-- Witness for C1: the baseline healthy source run through the scenario. -/
theorem claim_C1_health_state_machine_witness :
    dsBase.health_status = "healthy" ∧ dsBase.consecutive_failures = 0 ∧
    ((((dsBase.record_error 1 "a").record_error 2 "b").record_error 3 "c").health_status
      = "degraded") :=
  ⟨rfl, rfl,
    (claim_C1_health_state_machine dsBase 1 2 3 4 5 6 "a" "b" "c" "d" "e"
      none none rfl rfl).1⟩

/-- C10 — After any `record_success` or `record_error` the
mutual-exclusion flag `refresh_in_progress` is false, and `record_error`
stores `last_error_message` and `last_refresh_error` truncated to at most
1000 characters, whatever the input message's length. -/
theorem claim_C10_flag_cleared_and_truncation :
    ∀ (ds : DataSource) (now : Nat) (rt : Option ℚ) (rc : Option Nat) (msg : String),
      (ds.record_success now rt rc).refresh_in_progress = false ∧
      (ds.record_error now msg).refresh_in_progress = false ∧
      (ds.record_error now msg).last_error_message = some (pyTake 1000 msg) ∧
      (ds.record_error now msg).last_refresh_error = some (pyTake 1000 msg) ∧
      (pyTake 1000 msg).length ≤ 1000 := by
  intro ds now rt rc msg
  refine ⟨rfl, rfl, rfl, rfl, ?_⟩
  exact List.length_take_le 1000 msg.data

/-- C3 (counterexample to the claim as stated): a cache-enabled source with
`cache_ttl = 0` is *not* valid immediately after `cache_data` stamps
`cached_at` with the current time, because validity requires
`now < cached_at + cache_ttl` strictly. -/
theorem claim_C3_counterexample :
    ({ dsBase with cache_ttl := 0 } : DataSource).cache_enabled = true ∧
    (({ dsBase with cache_ttl := 0 } : DataSource).cache_data 5 (PyVal.num 1)).cached_at
      = some 5 ∧
    (({ dsBase with cache_ttl := 0 } : DataSource).cache_data 5 (PyVal.num 1)).is_cache_valid 5
      = false := by
  refine ⟨rfl, rfl, by decide⟩

/-- C3 (amended) — Cache validity: with caching enabled and `cached_at`
set, `is_cache_valid` holds iff `now < cached_at + cache_ttl`; immediately
after `cache_data` stamps the cache it holds provided `cache_ttl > 0`;
once `cache_ttl` seconds have elapsed it is false; and it is false
whenever caching is disabled or nothing was cached. -/
theorem claim_C3_cache_validity (ds : DataSource) (now t c : Nat) (d : PyVal) :
    (ds.cache_enabled = true → ds.cached_at = some c →
      (ds.is_cache_valid now = true ↔ now < c + ds.cache_ttl)) ∧
    (ds.cache_enabled = true → 0 < ds.cache_ttl →
      (ds.cache_data t d).is_cache_valid t = true) ∧
    (ds.cached_at = some c → c + ds.cache_ttl ≤ now →
      ds.is_cache_valid now = false) ∧
    (ds.cache_enabled = false → ds.is_cache_valid now = false) ∧
    (ds.cached_at = none → ds.is_cache_valid now = false) := by
  refine ⟨?_, ?_, ?_, ?_, ?_⟩
  · intro h1 h2
    unfold DataSource.is_cache_valid
    simp [h1, h2]
  · intro h1 h2
    unfold DataSource.is_cache_valid DataSource.cache_data
    simp [h1]
    omega
  · intro h1 h2
    unfold DataSource.is_cache_valid
    cases h : ds.cache_enabled <;> simp [h, h1] <;> omega
  · intro h1
    unfold DataSource.is_cache_valid
    simp [h1]
  · intro h1
    unfold DataSource.is_cache_valid
    cases h : ds.cache_enabled <;> simp [h, h1]

/-- Witness for C3: the baseline cached source (TTL 300, cached at 10) is
valid at time 100, and caching at time 7 on the baseline source is valid
at time 7. -/
theorem claim_C3_cache_validity_witness :
    (dsCached.cache_enabled = true ∧ dsCached.cached_at = some 10 ∧
      (dsCached.is_cache_valid 100 = true ↔ 100 < 10 + dsCached.cache_ttl) ∧
      (100 : Nat) < 10 + dsCached.cache_ttl) ∧
    (0 < dsBase.cache_ttl ∧ (dsBase.cache_data 7 (PyVal.num 1)).is_cache_valid 7 = true) :=
  ⟨⟨rfl, rfl, (claim_C3_cache_validity dsCached 100 0 10 PyVal.null).1 rfl rfl, by decide⟩,
   ⟨by decide, (claim_C3_cache_validity dsBase 0 7 0 (PyVal.num 1)).2.1 rfl (by decide)⟩⟩

/-- Keys-missing lookup: `d.get(k)` is `None` when no pair with key `k`
occurs in the dict. -/
lemma dictGet_eq_null (fs : List (String × PyVal)) (k : String)
    (h : ∀ v, (k, v) ∉ fs) : dictGet fs k = PyVal.null := by
  induction fs with
  | nil => rfl
  | cons kv rest ih =>
    obtain ⟨k', v⟩ := kv
    unfold dictGet
    have hk : k' ≠ k := by
      intro he
      exact h v (by simp [he])
    rw [if_neg hk]
    exact ih fun v hv => h v (List.mem_cons_of_mem _ hv)

/-- C5 (counterexample to the claim as stated): on the claim's own payload
`{"data": {"items": [{"x": 1}, {"x": 2}]}}`, the path `$.nope` — whose
single segment is missing from the payload — makes `_extract_data_path`
return `None` successfully instead of raising any exception. -/
theorem claim_C5_counterexample :
    DataFetcher.extract_data_path samplePayload "$.nope" = .ok PyVal.null := by
  rfl

/-- C5 (amended) — Data-path extraction: `$.data.items.1.x` on the sample
payload yields `2`; a missing *dict* key makes the traversal return `None`
(Python `dict.get`) and the loop break, so no exception is raised; the
wrapped `Error extracting data path:` exception arises for segments that
index a list non-numerically (and, likewise, for out-of-range indices or
scalar values), as the concrete third conjunct shows. -/
theorem claim_C5_data_path_extraction :
    DataFetcher.extract_data_path samplePayload "$.data.items.1.x" = .ok (PyVal.num 2) ∧
    (∀ (fs : List (String × PyVal)) (k : String) (rest : List (List Char)),
      (∀ v, (k, v) ∉ fs) →
      DataFetcher.extractLoop (PyVal.dict fs) (k.data :: rest) = .ok PyVal.null) ∧
    DataFetcher.extract_data_path samplePayload "$.data.items.x"
      = .error "Error extracting data path: Cannot access path: x" := by
  refine ⟨rfl, ?_, rfl⟩
  intro fs k rest h
  have hd : dictGet fs (String.mk k.data) = PyVal.null := dictGet_eq_null fs k h
  unfold DataFetcher.extractLoop DataFetcher.pathStep
  dsimp only
  rw [hd]

/-- Witness for C5's amended universal part: the missing key `nope` on the
sample payload's top-level dict. -/
theorem claim_C5_data_path_extraction_witness :
    (∀ v, ("nope", v) ∉ [("data", PyVal.dict [("items",
        PyVal.list [.dict [("x", .num 1)], .dict [("x", .num 2)]])])]) ∧
    DataFetcher.extractLoop
      (PyVal.dict [("data", PyVal.dict [("items",
        PyVal.list [.dict [("x", .num 1)], .dict [("x", .num 2)]])])])
      ["nope".data] = .ok PyVal.null := by
  have h : ∀ v, ("nope", v) ∉ [("data", PyVal.dict [("items",
      PyVal.list [.dict [("x", .num 1)], .dict [("x", .num 2)]])])] := by
    intro v hv
    simp only [List.mem_singleton, Prod.mk.injEq] at hv
    exact absurd hv.1 (by decide)
  exact ⟨h, (claim_C5_data_path_extraction.2.1 _ "nope" [] h)⟩

/-- C9 (counterexample to the claim as stated): when the chunked download
write fails after the scratch file was created (`delete=False`), the file
is still on disk when `_fetch_from_link` raises — the `try/finally`
cleanup only guards the read phase. -/
theorem claim_C9_counterexample :
    (DataFetcher.fetch_from_link (.ok ()) (.error "connection reset")
      (.ok PyVal.null)).2 = true := rfl

/-- C9 (amended) — Scratch-file cleanup: the scratch file survives
`_fetch_from_link` exactly when the download succeeded far enough to
create the file and the chunk-writing phase then failed; on success, and
on a failure while reading the downloaded file, the file is always
removed (and when the download fails before the file is created there is
nothing to remove). -/
theorem claim_C9_scratch_cleanup
    (download write : Except String Unit) (read : Except String PyVal) :
    (DataFetcher.fetch_from_link download write read).2 = true ↔
      download = .ok () ∧ ∃ e, write = .error e := by
  cases download with
  | error e => simp [DataFetcher.fetch_from_link]
  | ok u =>
    cases write with
    | error e =>
      cases u
      simp [DataFetcher.fetch_from_link]
    | ok v =>
      cases read with
      | error e => simp [DataFetcher.fetch_from_link]
      | ok p => simp [DataFetcher.fetch_from_link]

/-- C6 (counterexample to the claim as stated): three rows, no filters,
limit 2 — the emitted `total_rows` is 2, the truncated row count, not the
post-filter pre-truncation count 3. -/
theorem claim_C6_counterexample :
    (WidgetProcessor.process_table (fun _ rows => rows) limitTwoWidget
      threeRows []).total_rows = 2 ∧
    (WidgetProcessor.apply_filters threeRows []).length = 3 ∧
    (2 : Nat) ≠ 3 :=
  ⟨rfl, rfl, by decide⟩

/-- C6 (amended) — Table widget `total_rows`: for every table widget,
row set, filter list and sorting behaviour, the emitted `total_rows`
equals the number of rows actually returned after truncation to the
widget's limit (`len(df)` is taken from the already-truncated frame), so
it never exceeds `len(rows)`. -/
theorem claim_C6_total_rows
    (sortImpl : SortCfg → List PyRow → List PyRow)
    (w : TableWidget) (data : List PyRow) (filters : List FilterCfg) :
    (WidgetProcessor.process_table sortImpl w data filters).total_rows =
      (WidgetProcessor.process_table sortImpl w data filters).rows.length := rfl

/-- C7 — Stat-card trend: under `sum` aggregation, any (filtered) column
whose first half sums to 100 and second half to 150 yields
`{direction: "up", percentage: 50, value: 50}`; a column with fewer than
two rows yields no trend, and so does a zero first-half aggregate (for
both `sum` and `avg`). -/
theorem claim_C7_stat_card_trend :
    (∀ (col : List ℚ),
       2 ≤ col.length →
       (col.take (col.length / 2)).sum = 100 →
       (col.drop (col.length - col.length / 2)).sum = 150 →
       WidgetProcessor.calculate_trend col "sum" =
         some { direction := "up", percentage := 50, value := 50 }) ∧
    (∀ (col : List ℚ) (agg : String), col.length < 2 →
       WidgetProcessor.calculate_trend col agg = none) ∧
    (∀ (col : List ℚ), (col.take (col.length / 2)).sum = 0 →
       WidgetProcessor.calculate_trend col "sum" = none) ∧
    (∀ (col : List ℚ),
       (col.take (col.length / 2)).sum / ((col.take (col.length / 2)).length : ℚ) = 0 →
       WidgetProcessor.calculate_trend col "avg" = none) := by
  refine ⟨?_, ?_, ?_, ?_⟩
  · intro col hlen h1 h2
    unfold WidgetProcessor.calculate_trend
    rw [if_neg (by omega)]
    dsimp only
    rw [if_pos rfl, h1, h2]
    norm_num
  · intro col agg hlen
    unfold WidgetProcessor.calculate_trend
    rw [if_pos hlen]
  · intro col h1
    unfold WidgetProcessor.calculate_trend
    by_cases hlen : col.length < 2
    · rw [if_pos hlen]
    · rw [if_neg hlen]
      dsimp only
      rw [if_pos rfl, h1]
      simp
  · intro col h1
    unfold WidgetProcessor.calculate_trend
    by_cases hlen : col.length < 2
    · rw [if_pos hlen]
    · rw [if_neg hlen]
      dsimp only
      rw [if_neg (by decide), if_pos rfl, h1]
      simp

/-- Witness for C7: the column `[100, 150]` trends up by 50 percent, the
empty column has no trend, and `[0, 5]` has no trend under `sum`. -/
theorem claim_C7_stat_card_trend_witness :
    (2 ≤ ([100, 150] : List ℚ).length ∧
      WidgetProcessor.calculate_trend [100, 150] "sum" =
        some { direction := "up", percentage := 50, value := 50 }) ∧
    WidgetProcessor.calculate_trend ([] : List ℚ) "sum" = none ∧
    WidgetProcessor.calculate_trend ([0, 5] : List ℚ) "sum" = none :=
  ⟨⟨by decide,
    claim_C7_stat_card_trend.1 [100, 150] (by decide) (by norm_num) (by norm_num)⟩,
   claim_C7_stat_card_trend.2.1 [] "sum" (by decide),
   claim_C7_stat_card_trend.2.2.1 [0, 5] (by norm_num)⟩

/-- C8 — Format detection priority: a declared format other than `auto`
is used verbatim (via enum-name lookup), independent of every
file-content input; and under `auto`, a file whose first bytes are `%PDF`
with an extension mapped by neither the MIME registry (`guess_type`
yields nothing) nor the extension table is detected as PDF through the
magic-byte fallback. -/
theorem claim_C8_format_detection_priority :
    (∀ (declared : String) (mt mt' : Option String) (ext ext' pl pl' : String)
       (fe fe' : Bool) (hd hd' : List Char),
       declared ≠ "auto" →
       create_upload_data_format declared mt ext pl fe hd = formatFromName declared ∧
       create_upload_data_format declared mt ext pl fe hd =
         create_upload_data_format declared mt' ext' pl' fe' hd') ∧
    (∀ (ext pl : String) (rest : List Char),
       extMapping.lookup ext = none →
       DataSource.detect_format_from_file none ext pl true
         ('%' :: 'P' :: 'D' :: 'F' :: rest) = (some .pdf, none) ∧
       create_upload_data_format "auto" none ext pl true
         ('%' :: 'P' :: 'D' :: 'F' :: rest) = some DataFormat.pdf) := by
  constructor
  · intro declared mt mt' ext ext' pl pl' fe fe' hd hd' hne
    constructor
    · unfold create_upload_data_format
      rw [if_neg hne]
    · unfold create_upload_data_format
      rw [if_neg hne, if_neg hne]
  · intro ext pl rest hext
    constructor
    · unfold DataSource.detect_format_from_file
      dsimp only
      rw [hext]
      rfl
    · unfold create_upload_data_format DataSource.detect_format_from_file
      dsimp only
      rw [hext]
      rfl

/-- Witness for C8: a declared `csv` upload ignores a PDF header, while an
`auto` upload of a `.dat` file beginning with `%PDF` is detected as PDF. -/
theorem claim_C8_format_detection_priority_witness :
    ("csv" : String) ≠ "auto" ∧
    create_upload_data_format "csv" none ".dat" "report.dat" true
      ('%' :: 'P' :: 'D' :: 'F' :: ['-']) = formatFromName "csv" ∧
    extMapping.lookup ".dat" = none ∧
    create_upload_data_format "auto" none ".dat" "report.dat" true
      ('%' :: 'P' :: 'D' :: 'F' :: ['-']) = some DataFormat.pdf :=
  ⟨by decide,
   (claim_C8_format_detection_priority.1 "csv" none none ".dat" ".dat"
      "report.dat" "report.dat" true true ('%' :: 'P' :: 'D' :: 'F' :: ['-'])
      [] (by decide)).1,
   by decide,
   (claim_C8_format_detection_priority.2 ".dat" "report.dat" ['-']
      (by decide)).2⟩

/-- C4 — Exception containment at the orchestrator boundary: whenever a
fetch is actually dispatched (forced, or the cache is not valid) and the
dispatched connection fetcher raises, `fetch_data` returns the failure
dict `{success: False, error: msg, data: None}` (it is a total function:
nothing propagates), records the error on the `DataSource`, and completes
the refresh log it opened as `error` with the message and trace. -/
theorem claim_C4_exception_containment
    (fetcher : DataSource → Except (String × String) PyVal)
    (transform : String → PyVal → PyVal) (strLen : PyVal → Nat)
    (t1 t2 : Nat) (ds : DataSource) (force : Bool) (msg trace : String)
    (hf : fetcher ds = .error (msg, trace))
    (hrun : force = true ∨ ds.is_cache_valid t1 = false) :
    (DataFetcher.fetch_data fetcher transform strLen t1 t2 ds force).result
      = .failure msg ∧
    (DataFetcher.fetch_data fetcher transform strLen t1 t2 ds force).result.success
      = false ∧
    (DataFetcher.fetch_data fetcher transform strLen t1 t2 ds force).result.errorOut
      = some msg ∧
    (DataFetcher.fetch_data fetcher transform strLen t1 t2 ds force).result.dataOut
      = none ∧
    (DataFetcher.fetch_data fetcher transform strLen t1 t2 ds force).ds
      = ds.record_error t2 msg ∧
    (DataFetcher.fetch_data fetcher transform strLen t1 t2 ds force).logs
      = [(DataRefreshLog.start_refresh (if force then "manual" else "auto")
          t1).complete_error msg (some trace) t2] ∧
    ((DataRefreshLog.start_refresh (if force then "manual" else "auto")
        t1).complete_error msg (some trace) t2).status = "error" ∧
    ((DataRefreshLog.start_refresh (if force then "manual" else "auto")
        t1).complete_error msg (some trace) t2).error_message = some msg ∧
    ((DataRefreshLog.start_refresh (if force then "manual" else "auto")
        t1).complete_error msg (some trace) t2).error_trace = some trace := by
  have hcond : ¬ ((!force && ds.is_cache_valid t1) = true) := by
    rcases hrun with h | h <;> simp [h]
  have hstep : DataFetcher.fetch_data fetcher transform strLen t1 t2 ds force =
      { result := .failure msg
        ds := ds.record_error t2 msg
        logs := [(DataRefreshLog.start_refresh (if force then "manual" else "auto")
          t1).complete_error msg (some trace) t2]
        fetcher_calls := 1 } := by
    unfold DataFetcher.fetch_data
    rw [if_neg hcond, hf]
  rw [hstep]
  exact ⟨rfl, rfl, rfl, rfl, rfl, rfl, rfl, rfl, rfl⟩

/-- Witness for C4: a fetcher that always raises, on the baseline source
with a forced refresh. -/
theorem claim_C4_exception_containment_witness :
    ((fun _ : DataSource => (.error ("boom", "tb") : Except (String × String) PyVal))
        dsBase = .error ("boom", "tb")) ∧
    (DataFetcher.fetch_data
        (fun _ => .error ("boom", "tb")) (fun _ d => d) (fun _ => 0)
        0 1 dsBase true).result = .failure "boom" :=
  ⟨rfl,
   (claim_C4_exception_containment
      (fun _ => .error ("boom", "tb")) (fun _ d => d) (fun _ => 0)
      0 1 dsBase true "boom" "tb" rfl (Or.inl rfl)).1⟩

/-- C2 — Idempotent cache hit: a `fetch_data` call with
`force_refresh = false` on a source whose cache is valid returns the
cached payload with `from_cache = true` and leaves the source untouched —
no refresh log is opened, no health counter changes, the fetcher runs 0
times; consequently, two non-forced calls whose second lands inside the
TTL window of the state left by a successful first call run the
underlying fetcher at most once, and the second call returns
`from_cache = true` with data identical to the first call's data. -/
theorem claim_C2_idempotent_cache_hit :
    (∀ (fetcher : DataSource → Except (String × String) PyVal)
       (transform : String → PyVal → PyVal) (strLen : PyVal → Nat)
       (t1 t2 : Nat) (ds : DataSource),
       ds.is_cache_valid t1 = true →
       DataFetcher.fetch_data fetcher transform strLen t1 t2 ds false =
         { result := .cacheHit ds.cached_data ds.cached_at
           ds := ds, logs := [], fetcher_calls := 0 }) ∧
    (∀ (fetcher : DataSource → Except (String × String) PyVal)
       (transform : String → PyVal → PyVal) (strLen : PyVal → Nat)
       (ta tb t2 t2' : Nat) (ds : DataSource),
       ds.cache_enabled = true →
       (DataFetcher.fetch_data fetcher transform strLen ta tb ds false).result.success
         = true →
       (∀ c, (DataFetcher.fetch_data fetcher transform strLen ta tb ds false).ds.cached_at
          = some c → t2 < c + ds.cache_ttl) →
       (DataFetcher.fetch_data fetcher transform strLen t2 t2'
           (DataFetcher.fetch_data fetcher transform strLen ta tb ds false).ds
           false).result.from_cache = some true ∧
       (DataFetcher.fetch_data fetcher transform strLen t2 t2'
           (DataFetcher.fetch_data fetcher transform strLen ta tb ds false).ds
           false).result.dataOut
         = (DataFetcher.fetch_data fetcher transform strLen ta tb ds false).result.dataOut ∧
       (DataFetcher.fetch_data fetcher transform strLen ta tb ds false).fetcher_calls +
       (DataFetcher.fetch_data fetcher transform strLen t2 t2'
           (DataFetcher.fetch_data fetcher transform strLen ta tb ds false).ds
           false).fetcher_calls ≤ 1) := by
  have hit : ∀ (fetcher : DataSource → Except (String × String) PyVal)
      (transform : String → PyVal → PyVal) (strLen : PyVal → Nat)
      (t1 t2 : Nat) (ds : DataSource),
      ds.is_cache_valid t1 = true →
      DataFetcher.fetch_data fetcher transform strLen t1 t2 ds false =
        { result := .cacheHit ds.cached_data ds.cached_at
          ds := ds, logs := [], fetcher_calls := 0 } := by
    intro fetcher transform strLen t1 t2 ds hv
    unfold DataFetcher.fetch_data
    rw [if_pos (by simp [hv])]
  refine ⟨hit, ?_⟩
  intro fetcher transform strLen ta tb t2 t2' ds hce hsucc httl
  by_cases hv : ds.is_cache_valid ta = true
  · -- first call already hits the cache and leaves `ds` unchanged
    rw [hit fetcher transform strLen ta tb ds hv] at httl ⊢
    obtain ⟨_, c, hca, _⟩ := (is_cache_valid_iff ds ta).mp hv
    have hv2 : ds.is_cache_valid t2 = true := by
      rw [is_cache_valid_iff]
      exact ⟨hce, c, hca, httl c hca⟩
    rw [hit fetcher transform strLen t2 t2' ds hv2]
    exact ⟨rfl, rfl, by show (0 : Nat) + 0 ≤ 1; decide⟩
  · -- first call misses the cache; success means the fetcher returned data
    rw [Bool.not_eq_true] at hv
    cases hfr : fetcher ds with
    | error e =>
      exfalso
      obtain ⟨msg, trace⟩ := e
      have : (DataFetcher.fetch_data fetcher transform strLen ta tb ds false).result
          = .failure msg := by
        unfold DataFetcher.fetch_data
        rw [if_neg (by simp [hv]), hfr]
      rw [this] at hsucc
      simp [FetchResult.success] at hsucc
    | ok raw =>
      have hstep1 : DataFetcher.fetch_data fetcher transform strLen ta tb ds false =
          { result := .fresh (DataFetcher.process_data transform raw ds)
              (((tb - ta : Nat) : ℚ) * 1000)
              (pyLenOrOne (DataFetcher.process_data transform raw ds))
            ds := (ds.cache_data tb (DataFetcher.process_data transform raw ds)).record_success
              tb (some (((tb - ta : Nat) : ℚ) * 1000))
              (some (pyLenOrOne (DataFetcher.process_data transform raw ds)))
            logs := [(DataRefreshLog.start_refresh "auto" ta).complete_success
              (pyLenOrOne (DataFetcher.process_data transform raw ds))
              (pyLenOrOne (DataFetcher.process_data transform raw ds))
              (strLen (DataFetcher.process_data transform raw ds)) tb]
            fetcher_calls := 1 } := by
        unfold DataFetcher.fetch_data
        rw [if_neg (by simp [hv]), hfr]
        rfl
      rw [hstep1] at httl ⊢
      have hca2 : ((ds.cache_data tb (DataFetcher.process_data transform raw ds)).record_success
          tb (some (((tb - ta : Nat) : ℚ) * 1000))
          (some (pyLenOrOne (DataFetcher.process_data transform raw ds)))).cached_at
          = some tb := by
        show (ds.cache_data tb (DataFetcher.process_data transform raw ds)).cached_at = some tb
        unfold DataSource.cache_data
        simp [hce]
      have hcd2 : ((ds.cache_data tb (DataFetcher.process_data transform raw ds)).record_success
          tb (some (((tb - ta : Nat) : ℚ) * 1000))
          (some (pyLenOrOne (DataFetcher.process_data transform raw ds)))).cached_data
          = some (DataFetcher.process_data transform raw ds) := by
        show (ds.cache_data tb (DataFetcher.process_data transform raw ds)).cached_data
          = some (DataFetcher.process_data transform raw ds)
        unfold DataSource.cache_data
        simp [hce]
      have hv2 : ((ds.cache_data tb (DataFetcher.process_data transform raw ds)).record_success
          tb (some (((tb - ta : Nat) : ℚ) * 1000))
          (some (pyLenOrOne (DataFetcher.process_data transform raw ds)))).is_cache_valid t2
          = true := by
        rw [is_cache_valid_iff]
        exact ⟨hce, tb, hca2, httl tb hca2⟩
      rw [hit fetcher transform strLen t2 t2' _ hv2]
      refine ⟨rfl, ?_, by show (1 : Nat) + 0 ≤ 1; decide⟩
      show ((ds.cache_data tb (DataFetcher.process_data transform raw ds)).record_success
          tb (some (((tb - ta : Nat) : ℚ) * 1000))
          (some (pyLenOrOne (DataFetcher.process_data transform raw ds)))).cached_data
        = some (DataFetcher.process_data transform raw ds)
      exact hcd2

/-- Witness for C2: the cached baseline source at time 100 (TTL window
10..310) — the call returns the cached payload and changes nothing. -/
theorem claim_C2_idempotent_cache_hit_witness :
    dsCached.is_cache_valid 100 = true ∧
    DataFetcher.fetch_data (fun _ => .ok (PyVal.num 1)) (fun _ d => d) (fun _ => 0)
        100 100 dsCached false =
      { result := .cacheHit dsCached.cached_data dsCached.cached_at
        ds := dsCached, logs := [], fetcher_calls := 0 } :=
  ⟨by decide,
   claim_C2_idempotent_cache_hit.1 (fun _ => .ok (PyVal.num 1)) (fun _ d => d)
     (fun _ => 0) 100 100 dsCached (by decide)⟩
